import Mathlib

/-!
Shallow embedding of the cube widget's animation/interaction state machine
(`src/components/Cube/Cube/Cube.jsx`, wobble variant).

Numbers are modelled as reals.  The two browser clocks (`Date.now`,
`performance.now` / the `requestAnimationFrame` timestamp) are modelled by a
single real-valued timeline: the code never compares the two clocks
numerically, it only stores one of them per field.  The two `setTimeout`
timers (1000 ms auto-resume, 600 ms manual-transition clear) are modelled as
optional absolute deadlines carried in the state; scheduling a timer replaces
the deadline, clearing it sets `none`, and a fire event is a no-op unless the
state still carries exactly that deadline (a cleared/replaced timeout never
fires).
-/

noncomputable section

/-- JavaScript number truncation toward zero (used by the `%` operator). -/
def jsTrunc (x : ℝ) : ℤ := if 0 ≤ x then ⌊x⌋ else ⌈x⌉

/-- JavaScript `%` remainder on numbers: `a - b * trunc (a / b)`;
the result has the sign of the dividend. -/
def jsMod (a b : ℝ) : ℝ := a - b * (jsTrunc (a / b) : ℝ)

/-- `autoRotationTargetSpeed = 0.02` deg per ms for the Y rotation. -/
def autoRotationTargetSpeed : ℝ := 0.02

/-- `autoRotationPeriod = 20000` ms, period of one full X wobble cycle. -/
def autoRotationPeriod : ℝ := 20000

/-- The X wobble formula shared by `autoRotate` and `freezeRotation`:
`20 * Math.cos((2 * Math.PI * ((time - phaseOffsetRef.current) % autoRotationPeriod)) / autoRotationPeriod)`. -/
def wobbleX (phaseOffset time : ℝ) : ℝ :=
  20 * Real.cos (2 * Real.pi * jsMod (time - phaseOffset) autoRotationPeriod
    / autoRotationPeriod)

/-- The component state: `rotation` (split into `x`, `y`), the three other
`useState` values, the `lastTimeRef` and `phaseOffsetRef` refs, and the two
pending timeouts as absolute deadlines. -/
structure CubeState where
  x : ℝ
  y : ℝ
  isAutoRotating : Bool
  lastInteraction : Option ℝ
  manualTransition : Bool
  lastTime : Option ℝ
  phaseOffset : ℝ
  resumeDeadline : Option ℝ
  transitionDeadline : Option ℝ

/-- Keyboard keys as the keydown handler distinguishes them. -/
inductive Key
  | arrowLeft
  | arrowRight
  | other
deriving DecidableEq

/-- Re-run of the auto-resume `useEffect` after its dependencies
(`isAutoRotating`, `lastInteraction`, `rotation.x`) change at time `now`: the
cleanup clears the old 1000 ms timeout, and a new one is scheduled exactly
when `!isAutoRotating && lastInteraction`. -/
def scheduleResume (now : ℝ) (s : CubeState) : CubeState :=
  { s with resumeDeadline :=
      if !s.isAutoRotating && s.lastInteraction.isSome then some (now + 1000)
      else none }

/-- `freezeRotation`: recompute X from `phaseOffsetRef` at `performance.now()`
and store it, preserving Y. -/
def freezeRotationX (now : ℝ) (s : CubeState) : CubeState :=
  { s with x := wobbleX s.phaseOffset now }

/-- `handleKeyDown` at time `now`: if auto-rotating, stop and (when
`lastTimeRef.current` is truthy, i.e. non-null and non-zero) store it as the
phase offset; record the interaction, enable the manual transition, adjust Y
for the arrow keys, and replace the 600 ms transition-clear timeout.  The
auto-resume effect then re-runs and restarts its 1000 ms timer.  This is the
handler's own action; the keydown effect's cleanup, which cancels the
pending transition timeout again whenever the press toggled
`isAutoRotating`, is composed on top in `keyDownEvent`. -/
def handleKeyDown (key : Key) (now : ℝ) (s : CubeState) : CubeState :=
  scheduleResume now
    { s with
      isAutoRotating := false
      phaseOffset :=
        if s.isAutoRotating then
          match s.lastTime with
          | some t => if t = 0 then s.phaseOffset else t
          | none => s.phaseOffset
        else s.phaseOffset
      lastInteraction := some now
      manualTransition := true
      y :=
        match key with
        | Key.arrowLeft => s.y - 45
        | Key.arrowRight => s.y + 45
        | Key.other => s.y
      transitionDeadline := some (now + 600) }

/-- `handleMouseEnter` at time `now`: only while auto-rotating, freeze X,
stop auto-rotation, turn the manual transition off and record the
interaction (which restarts the auto-resume effect's 1000 ms timer);
otherwise nothing happens. -/
def handleMouseEnter (now : ℝ) (s : CubeState) : CubeState :=
  if s.isAutoRotating then
    scheduleResume now
      { freezeRotationX now s with
        isAutoRotating := false
        manualTransition := false
        lastInteraction := some now }
  else s

/-- Firing of the auto-resume timeout at its deadline `now`: recover the
phase from the frozen X via `Math.acos`, set
`phaseOffsetRef := performance.now() - (acos(x/20) * period) / (2π)`, turn
the manual transition off, reset `lastTimeRef` to `now - 50`, and resume
auto-rotation.  A cleared or replaced timeout (deadline mismatch) never
fires. -/
def resumeFire (now : ℝ) (s : CubeState) : CubeState :=
  if s.resumeDeadline = some now then
    scheduleResume now
      { s with
        phaseOffset :=
          now - Real.arccos (s.x / 20) * autoRotationPeriod / (2 * Real.pi)
        manualTransition := false
        lastTime := some (now - 50)
        isAutoRotating := true }
  else s

/-- Firing of the 600 ms manual-transition timeout at its deadline `now`:
disable the manual transition and drop the timeout handle.  A cleared or
replaced timeout (deadline mismatch) never fires. -/
def transitionFire (now : ℝ) (s : CubeState) : CubeState :=
  if s.transitionDeadline = some now then
    { s with manualTransition := false, transitionDeadline := none }
  else s

/-- Cleanup of the keydown `useEffect` (deps `[isAutoRotating]`): whenever
`isAutoRotating` changed, the effect re-runs and its cleanup executes
`clearTimeout(manualTransitionTimeoutRef.current)`, cancelling the pending
600 ms transition-clear timeout — including one the handler itself just
scheduled in the same update cycle. -/
def keydownEffectCleanup (prevAuto : Bool) (s : CubeState) : CubeState :=
  if prevAuto ≠ s.isAutoRotating then { s with transitionDeadline := none }
  else s

/-- A complete keydown event: the handler body (plus the auto-resume
effect's re-run, already folded into `handleKeyDown`) followed by the
keydown effect's own cleanup, which fires exactly when the press toggled
`isAutoRotating` (i.e. the press arrived while auto-rotating). -/
def keyDownEvent (key : Key) (now : ℝ) (s : CubeState) : CubeState :=
  keydownEffectCleanup s.isAutoRotating (handleKeyDown key now s)

/-- One `autoRotate` animation frame at timestamp `time`: when a previous
frame time exists, add `speed * delta` to Y and recompute the X wobble; then
record `time` in `lastTimeRef`.  (The auto-resume effect re-runs when
`rotation.x` changes; while auto-rotating it schedules nothing.) -/
def autoRotate (time : ℝ) (s : CubeState) : CubeState :=
  scheduleResume time
    { (match s.lastTime with
       | some lt =>
           { s with
             y := s.y + autoRotationTargetSpeed * (time - lt)
             x := wobbleX s.phaseOffset time }
       | none => s) with
      lastTime := some time }

/-- A sequence of animation frames at the given timestamps. -/
def runFrames (times : List ℝ) (s : CubeState) : CubeState :=
  times.foldl (fun st t => autoRotate t st) s

/-- Frame timestamps produced by successive elapsed times `deltas` starting
from previous-frame time `t0`. -/
def cumTimes (t0 : ℝ) : List ℝ → List ℝ
  | [] => []
  | d :: ds => (t0 + d) :: cumTimes (t0 + d) ds

/-- The inline `transform` style string
`rotateX(${rotation.x}deg) rotateY(${rotation.y}deg)`; `fmt` models the
JavaScript number-to-string interpolation. -/
def renderTransform (fmt : ℝ → String) (s : CubeState) : String :=
  "rotateX(" ++ fmt s.x ++ "deg) rotateY(" ++ fmt s.y ++ "deg)"

/-- The inline `transition` style string, toggled by `manualTransition`. -/
def renderTransition (s : CubeState) : String :=
  if s.manualTransition then "transform 0.6s cubic-bezier(0.4, 0.0, 0.2, 1)"
  else "none"

/-! ### Helper lemmas -/

theorem jsMod_eq_self {a b : ℝ} (h0 : 0 ≤ a) (hb : a < b) : jsMod a b = a := by
  have hbpos : 0 < b := lt_of_le_of_lt h0 hb
  have hq0 : 0 ≤ a / b := div_nonneg h0 hbpos.le
  have hq1 : a / b < 1 := (div_lt_one hbpos).mpr hb
  have : jsTrunc (a / b) = 0 := by
    simp only [jsTrunc, if_pos hq0]
    exact Int.floor_eq_zero_iff.mpr ⟨hq0, hq1⟩
  simp [jsMod, this]

theorem cos_two_pi_mul_jsMod (a b : ℝ) (hb : b ≠ 0) :
    Real.cos (2 * Real.pi * jsMod a b / b) = Real.cos (2 * Real.pi * a / b) := by
  have : 2 * Real.pi * jsMod a b / b
      = 2 * Real.pi * a / b - (jsTrunc (a / b) : ℝ) * (2 * Real.pi) := by
    field_simp [jsMod]
    ring
  rw [this, Real.cos_sub_int_mul_two_pi]

/-! ### Claim theorems -/

/-- Claim C4: in every state, ArrowRight increases Y by exactly 45 degrees
and ArrowLeft decreases Y by exactly 45 degrees, and neither changes X. -/
theorem arrow_keys_adjust_y (now : ℝ) (s : CubeState) :
    (handleKeyDown Key.arrowRight now s).y = s.y + 45 ∧
    (handleKeyDown Key.arrowRight now s).x = s.x ∧
    (handleKeyDown Key.arrowLeft now s).y = s.y - 45 ∧
    (handleKeyDown Key.arrowLeft now s).x = s.x := by
  refine ⟨?_, ?_, ?_, ?_⟩ <;> simp [handleKeyDown, scheduleResume]

/-- Claim C6: for every phase offset and frame time, the X value produced by
the animation driver is periodic in time with period 20000 ms and lies in
the interval from -20 to 20. -/
theorem wobble_periodic_bounded (p t : ℝ) :
    wobbleX p (t + 20000) = wobbleX p t ∧
    -20 ≤ wobbleX p t ∧ wobbleX p t ≤ 20 := by
  have hper : (autoRotationPeriod : ℝ) ≠ 0 := by norm_num [autoRotationPeriod]
  refine ⟨?_, ?_, ?_⟩
  · unfold wobbleX
    rw [cos_two_pi_mul_jsMod _ _ hper, cos_two_pi_mul_jsMod _ _ hper]
    have harg : 2 * Real.pi * (t + 20000 - p) / autoRotationPeriod
        = 2 * Real.pi * (t - p) / autoRotationPeriod + 2 * Real.pi := by
      unfold autoRotationPeriod
      ring
    rw [harg, Real.cos_add_two_pi]
  · have h := Real.neg_one_le_cos
      (2 * Real.pi * jsMod (t - p) autoRotationPeriod / autoRotationPeriod)
    unfold wobbleX
    linarith
  · have h := Real.cos_le_one
      (2 * Real.pi * jsMod (t - p) autoRotationPeriod / autoRotationPeriod)
    unfold wobbleX
    linarith

/-- Claim C8: the render step produces the transform string
`rotateX(x deg) rotateY(y deg)`, and the transition style is the 600 ms
cubic-bezier easing string when the manual-transition flag is true and
`none` when it is false. -/
theorem render_styles (fmt : ℝ → String) (s : CubeState) :
    renderTransform fmt s
      = "rotateX(" ++ fmt s.x ++ "deg) rotateY(" ++ fmt s.y ++ "deg)" ∧
    (s.manualTransition = true →
      renderTransition s = "transform 0.6s cubic-bezier(0.4, 0.0, 0.2, 1)") ∧
    (s.manualTransition = false → renderTransition s = "none") := by
  refine ⟨rfl, ?_, ?_⟩ <;> intro h <;> simp [renderTransition, h]

/-- Witness for C8 at concrete states with the flag on and off. -/
theorem render_styles_witness :
    renderTransition ⟨20, 0, false, none, true, none, 0, none, none⟩
      = "transform 0.6s cubic-bezier(0.4, 0.0, 0.2, 1)" ∧
    renderTransition ⟨20, 0, true, none, false, none, 0, none, none⟩
      = "none" :=
  ⟨(render_styles (fun _ => "") _).2.1 rfl,
   (render_styles (fun _ => "") _).2.2 rfl⟩

/-- Claim C9: a pointer-enter event that arrives while the cube is in manual
mode is a complete no-op: the state, including the last-interaction
timestamp and the pending resume deadline, is unchanged. -/
theorem mouse_enter_manual_noop (now : ℝ) (s : CubeState)
    (h : s.isAutoRotating = false) : handleMouseEnter now s = s := by
  simp [handleMouseEnter, h]

/-- Witness for C9 at a concrete manual-mode state. -/
theorem mouse_enter_manual_noop_witness :
    handleMouseEnter 5 ⟨20, 0, false, some 0, false, none, 0, some 1000, none⟩
      = ⟨20, 0, false, some 0, false, none, 0, some 1000, none⟩ :=
  mouse_enter_manual_noop 5 _ rfl

/-- Claim C10: a keydown whose key is neither ArrowLeft nor ArrowRight still
switches to manual mode, records the interaction timestamp, enables the
manual-transition flag and restarts the 600 ms clear timer, while leaving
the rotation unchanged. -/
theorem other_key_preserves_rotation (k : Key) (now : ℝ) (s : CubeState)
    (hL : k ≠ Key.arrowLeft) (hR : k ≠ Key.arrowRight) :
    (handleKeyDown k now s).isAutoRotating = false ∧
    (handleKeyDown k now s).lastInteraction = some now ∧
    (handleKeyDown k now s).manualTransition = true ∧
    (handleKeyDown k now s).transitionDeadline = some (now + 600) ∧
    (handleKeyDown k now s).x = s.x ∧
    (handleKeyDown k now s).y = s.y := by
  have hk : k = Key.other := by cases k <;> simp_all
  subst hk
  refine ⟨?_, ?_, ?_, ?_, ?_, ?_⟩ <;> simp [handleKeyDown, scheduleResume]

/-- Witness for C10 at a concrete non-arrow key event. -/
theorem other_key_preserves_rotation_witness :
    (handleKeyDown Key.other 2 ⟨20, 30, true, none, false, some 1, 0, none, none⟩).manualTransition
      = true ∧
    (handleKeyDown Key.other 2 ⟨20, 30, true, none, false, some 1, 0, none, none⟩).y
      = (30 : ℝ) :=
  ⟨(other_key_preserves_rotation Key.other 2 _ (by decide) (by decide)).2.2.1,
   (other_key_preserves_rotation Key.other 2 _ (by decide) (by decide)).2.2.2.2.2⟩

/-- Claim C5: over any sequence of auto-mode frames with nonnegative
per-frame elapsed times, Y ends at the initial Y plus 0.02 deg/ms times the
sum of the elapsed times. -/
theorem auto_frames_y_total (ds : List ℝ) (t0 : ℝ) (s : CubeState)
    (hlt : s.lastTime = some t0) (hpos : ∀ d ∈ ds, 0 ≤ d) :
    (runFrames (cumTimes t0 ds) s).y
      = s.y + autoRotationTargetSpeed * ds.sum := by
  induction ds generalizing t0 s with
  | nil => simp [runFrames, cumTimes]
  | cons d ds ih =>
    have hstep : runFrames (cumTimes t0 (d :: ds)) s
        = runFrames (cumTimes (t0 + d) ds) (autoRotate (t0 + d) s) := by
      simp [cumTimes, runFrames]
    have hy : (autoRotate (t0 + d) s).y
        = s.y + autoRotationTargetSpeed * d := by
      simp [autoRotate, scheduleResume, hlt]
    have hl : (autoRotate (t0 + d) s).lastTime = some (t0 + d) := by
      simp [autoRotate, scheduleResume, hlt]
    rw [hstep, ih (t0 + d) _ hl (fun e he => hpos e (List.mem_cons_of_mem d he)),
      hy, List.sum_cons]
    ring

/-- Witness for C5: two frames of 10 ms and 20 ms advance Y by 0.02 · 30. -/
theorem auto_frames_y_total_witness :
    (runFrames (cumTimes 0 [10, 20])
        ⟨20, 1, true, none, false, some 0, 0, none, none⟩).y
      = (1 : ℝ) + autoRotationTargetSpeed * ([10, 20] : List ℝ).sum :=
  auto_frames_y_total [10, 20] 0 _ rfl (by norm_num [List.forall_mem_cons])

/-- Claim C2: when the resume timeout fires at its deadline on a frozen X in
the range from -20 to 20, the recomputed phase offset makes the animation
driver's X formula reproduce exactly the frozen X at the resume time. -/
theorem resume_roundtrip (now : ℝ) (s : CubeState)
    (h1 : -20 ≤ s.x) (h2 : s.x ≤ 20) (hd : s.resumeDeadline = some now) :
    wobbleX ((resumeFire now s).phaseOffset) now = s.x := by
  have hp : (resumeFire now s).phaseOffset
      = now - Real.arccos (s.x / 20) * autoRotationPeriod / (2 * Real.pi) := by
    simp [resumeFire, hd, scheduleResume]
  set a : ℝ := Real.arccos (s.x / 20) * autoRotationPeriod / (2 * Real.pi)
    with ha
  have hpi : (0 : ℝ) < Real.pi := Real.pi_pos
  have ha0 : 0 ≤ a := by
    rw [ha]
    apply div_nonneg
    · exact mul_nonneg (Real.arccos_nonneg _) (by norm_num [autoRotationPeriod])
    · positivity
  have ha1 : a < autoRotationPeriod := by
    have hle : Real.arccos (s.x / 20) ≤ Real.pi := Real.arccos_le_pi _
    have h10 : a ≤ autoRotationPeriod / 2 := by
      rw [ha]
      rw [div_le_iff₀ (by positivity)]
      unfold autoRotationPeriod
      nlinarith
    have : (0 : ℝ) < autoRotationPeriod := by norm_num [autoRotationPeriod]
    linarith
  have harg : now - (resumeFire now s).phaseOffset = a := by
    rw [hp]; ring
  have hcos : 2 * Real.pi * a / autoRotationPeriod = Real.arccos (s.x / 20) := by
    rw [ha]
    unfold autoRotationPeriod
    field_simp
  have hx1 : (-1 : ℝ) ≤ s.x / 20 := by linarith
  have hx2 : s.x / 20 ≤ 1 := by linarith
  calc wobbleX ((resumeFire now s).phaseOffset) now
      = 20 * Real.cos (2 * Real.pi * jsMod a autoRotationPeriod
          / autoRotationPeriod) := by rw [wobbleX, harg]
    _ = 20 * Real.cos (Real.arccos (s.x / 20)) := by
          rw [jsMod_eq_self ha0 ha1, hcos]
    _ = 20 * (s.x / 20) := by rw [Real.cos_arccos hx1 hx2]
    _ = s.x := by ring

/-- Witness for C2 at a concrete frozen state with a negative frozen X. -/
theorem resume_roundtrip_witness :
    wobbleX ((resumeFire 1000
        ⟨-10, 0, false, some 0, false, none, 0, some 1000, none⟩).phaseOffset)
      1000 = (-10 : ℝ) :=
  resume_roundtrip 1000 _ (by norm_num) (by norm_num) rfl

/-- Claim C3: when the resume timeout fires at its deadline while the cube
is in manual mode with a recorded interaction, it recomputes the phase
offset from the frozen X via the inverse cosine, clears the
manual-transition flag, and switches back to auto mode. -/
theorem resume_step_effects (now ti : ℝ) (s : CubeState)
    (hA : s.isAutoRotating = false) (hI : s.lastInteraction = some ti)
    (hd : s.resumeDeadline = some now) :
    (resumeFire now s).phaseOffset
      = now - Real.arccos (s.x / 20) * autoRotationPeriod / (2 * Real.pi) ∧
    (resumeFire now s).manualTransition = false ∧
    (resumeFire now s).isAutoRotating = true := by
  refine ⟨?_, ?_, ?_⟩ <;> simp [resumeFire, hd, scheduleResume]

/-- Witness for C3 at a concrete manual-mode state. -/
theorem resume_step_effects_witness :
    (resumeFire 1000
        ⟨5, 0, false, some 0, false, none, 0, some 1000, none⟩).manualTransition
      = false ∧
    (resumeFire 1000
        ⟨5, 0, false, some 0, false, none, 0, some 1000, none⟩).isAutoRotating
      = true :=
  ⟨(resume_step_effects 1000 0 _ rfl rfl rfl).2.1,
   (resume_step_effects 1000 0 _ rfl rfl rfl).2.2⟩

/-- Claim C7 fails as stated: for a key press that arrives while
auto-rotating, the press toggles `isAutoRotating`, the keydown effect
re-runs, and its cleanup cancels the just-scheduled 600 ms timeout, so the
clear never fires at 600 ms and the flag is still true then.  Concretely,
from an auto-rotating state, after a press at time 0 the fire attempt at
600 ms leaves the flag true. -/
theorem transition_clear_600_cex :
    ¬ ∀ (k : Key) (now : ℝ) (s : CubeState),
        (transitionFire (now + 600) (keyDownEvent k now s)).manualTransition
          = false := by
  intro h
  have h1 := h Key.other 0 ⟨20, 0, true, none, false, some 1, 0, none, none⟩
  have h2 : (transitionFire ((0 : ℝ) + 600)
      (keyDownEvent Key.other 0
        ⟨20, 0, true, none, false, some 1, 0, none, none⟩)).manualTransition
      = true := by
    simp [keyDownEvent, keydownEffectCleanup, handleKeyDown, scheduleResume,
      transitionFire]
  rw [h1] at h2
  exact Bool.false_ne_true h2

/-- Claim C7 amended: every key press sets the manual-transition flag and
schedules a 600 ms clear timer replacing any pending one, and a fire at any
other deadline (a cancelled or stale timer) is a no-op.  For a press
arriving while already in manual mode the timer survives: the flag is
cleared exactly 600 ms after the most recent press.  But for a press
arriving while auto-rotating, the mode toggle re-runs the keydown effect and
its cleanup cancels the just-scheduled timer, so no transition fire ever
clears the flag; it stays true until the 1000 ms auto-resume fire clears
it. -/
theorem transition_flag_window_amended (k : Key) (now : ℝ) (s : CubeState) :
    (keyDownEvent k now s).manualTransition = true ∧
    (s.isAutoRotating = false →
      (keyDownEvent k now s).transitionDeadline = some (now + 600) ∧
      (∀ t, t ≠ now + 600 →
        transitionFire t (keyDownEvent k now s) = keyDownEvent k now s) ∧
      (transitionFire (now + 600) (keyDownEvent k now s)).manualTransition
        = false) ∧
    (s.isAutoRotating = true →
      (keyDownEvent k now s).transitionDeadline = none ∧
      (∀ t, transitionFire t (keyDownEvent k now s) = keyDownEvent k now s) ∧
      (keyDownEvent k now s).resumeDeadline = some (now + 1000) ∧
      (resumeFire (now + 1000) (keyDownEvent k now s)).manualTransition
        = false) := by
  refine ⟨by cases hb : s.isAutoRotating <;>
    simp [keyDownEvent, keydownEffectCleanup, handleKeyDown, scheduleResume,
      hb], ?_, ?_⟩
  · intro hm
    have hd : (keyDownEvent k now s).transitionDeadline = some (now + 600) := by
      simp [keyDownEvent, keydownEffectCleanup, handleKeyDown, scheduleResume,
        hm]
    refine ⟨hd, ?_, by simp only [transitionFire, if_pos hd]⟩
    intro t ht
    have hne : ¬ (keyDownEvent k now s).transitionDeadline = some t := by
      rw [hd]
      simp only [Option.some.injEq]
      exact fun h2 => ht h2.symm
    simp only [transitionFire, if_neg hne]
  · intro ha
    have hd : (keyDownEvent k now s).transitionDeadline = none := by
      simp [keyDownEvent, keydownEffectCleanup, handleKeyDown, scheduleResume,
        ha]
    have hr : (keyDownEvent k now s).resumeDeadline = some (now + 1000) := by
      simp [keyDownEvent, keydownEffectCleanup, handleKeyDown, scheduleResume,
        ha]
    refine ⟨hd, ?_, hr, ?_⟩
    · intro t
      have hne : ¬ (keyDownEvent k now s).transitionDeadline = some t := by
        rw [hd]
        exact fun h2 => Option.noConfusion h2
      simp only [transitionFire, if_neg hne]
    · simp only [resumeFire, if_pos hr]
      simp [scheduleResume]

/-- Witness for the amended C7: a press at time 0 while manual has its flag
cleared by the 600 ms fire, while a press at time 0 while auto-rotating has
no pending 600 ms timer and keeps the flag until the 1000 ms resume fire. -/
theorem transition_flag_window_amended_witness :
    (transitionFire ((0 : ℝ) + 600)
        (keyDownEvent Key.other 0
          ⟨20, 0, false, some 0, false, some 1, 0, none, none⟩)).manualTransition
      = false ∧
    (keyDownEvent Key.other 0
        ⟨20, 0, true, none, false, some 1, 0, none, none⟩).transitionDeadline
      = none ∧
    (resumeFire ((0 : ℝ) + 1000)
        (keyDownEvent Key.other 0
          ⟨20, 0, true, none, false, some 1, 0, none, none⟩)).manualTransition
      = false :=
  ⟨((transition_flag_window_amended Key.other 0 _).2.1 rfl).2.2,
   ((transition_flag_window_amended Key.other 0 _).2.2 rfl).1,
   ((transition_flag_window_amended Key.other 0 _).2.2 rfl).2.2.2⟩

/-- Claim C1 fails as stated: the keydown path does not recompute X from the
phase offset; it keeps the last rendered X.  Concretely, from an
auto-rotating state with X = 5 and phase offset 0, a keydown at time 0
leaves X = 5, while the instantaneous wobble value at time 0 is 20. -/
theorem keydown_recompute_x_cex :
    ¬ ∀ (k : Key) (now : ℝ) (s : CubeState), s.isAutoRotating = true →
        (handleKeyDown k now s).x = wobbleX s.phaseOffset now := by
  intro h
  have h5 := h Key.other 0 ⟨5, 0, true, none, false, some 1000, 0, none, none⟩ rfl
  have hx : (handleKeyDown Key.other 0
      ⟨5, 0, true, none, false, some 1000, 0, none, none⟩).x = 5 := by
    simp [handleKeyDown, scheduleResume]
  have hw : wobbleX 0 0 = 20 := by
    have hm : jsMod ((0 : ℝ) - 0) autoRotationPeriod = 0 := by
      rw [show (0 : ℝ) - 0 = 0 by ring]
      exact jsMod_eq_self le_rfl (by norm_num [autoRotationPeriod])
    rw [wobbleX, hm]
    simp
  rw [hx, hw] at h5
  norm_num at h5

/-- Claim C1 amended: on pointer-enter while auto-rotating, X is frozen at
its instantaneous wobble value recomputed from the phase offset at the event
time, the mode switches to manual and the interaction timestamp is recorded;
on keydown while auto-rotating, X keeps its last rendered value, the phase
offset is set to the last frame timestamp (when that ref is non-null and
nonzero), the mode switches to manual and the interaction timestamp is
recorded. -/
theorem manual_input_freeze_amended (k : Key) (now : ℝ) (s : CubeState)
    (h : s.isAutoRotating = true) :
    (handleMouseEnter now s).x = wobbleX s.phaseOffset now ∧
    (handleMouseEnter now s).isAutoRotating = false ∧
    (handleMouseEnter now s).lastInteraction = some now ∧
    (handleKeyDown k now s).x = s.x ∧
    (handleKeyDown k now s).isAutoRotating = false ∧
    (handleKeyDown k now s).lastInteraction = some now ∧
    (∀ lt, s.lastTime = some lt → lt ≠ 0 →
      (handleKeyDown k now s).phaseOffset = lt) := by
  refine ⟨?_, ?_, ?_, ?_, ?_, ?_, ?_⟩ <;>
    simp [handleMouseEnter, handleKeyDown, freezeRotationX, scheduleResume, h]
  intro lt hlt hne
  simp [hlt, hne]

/-- Witness for the amended C1 at a concrete auto-rotating state. -/
theorem manual_input_freeze_amended_witness :
    (handleKeyDown Key.other 3 ⟨5, 2, true, none, false, some 7, 1, none, none⟩).x
      = (5 : ℝ) ∧
    (handleKeyDown Key.other 3 ⟨5, 2, true, none, false, some 7, 1, none, none⟩).phaseOffset
      = (7 : ℝ) ∧
    (handleMouseEnter 3 ⟨5, 2, true, none, false, some 7, 1, none, none⟩).x
      = wobbleX 1 3 :=
  ⟨(manual_input_freeze_amended Key.other 3 _ rfl).2.2.2.1,
   (manual_input_freeze_amended Key.other 3 _ rfl).2.2.2.2.2.2 7 rfl (by norm_num),
   (manual_input_freeze_amended Key.other 3 _ rfl).1⟩
